import Mathlib

/-!
Verification of the Grove language interpreter (repository GroveLanguage).

The repository contains three near-identical copies of the parse/eval engine:
`src/test_suite/grove_lang.py` (the completed Grove interpreter, whose
environment is the module globals), `src/grove_lang.py` (an unfinished copy:
`Command`/`Expression`/`Statement` have no `parse` methods, `Import` is a stub),
and `src/Calc/calc_lang.py` (the calculator subset with `Add`/`Subtract`).

This file embeds the test_suite Grove engine (namespace `Grove`), the Calc
engine (namespace `Calc`), and the one fragment of the unfinished copy a claim
needs (namespace `GroveMain`).  Python exceptions are modeled by `Err`:
`GroveParseError`/`CalcParseException` as `.parseError`,
`GroveEvalError`/`CalcEvalException` as `.evalError`, every other Python
exception (IndexError, TypeError, ModuleNotFoundError) as `.pyError`, and
`SystemExit` (raised by `sys.exit()`) as `.systemExit`.  `try/except
GroveParseError` blocks catch exactly `.parseError`; bare `except:` blocks
catch every `Err`.  Host reflection (`dir`, `getattr`, `callable`, method
invocation, `importlib.import_module`, and the reflective tail of
`Object.parse`) is modeled by an explicit `Host` structure; parsing and
evaluation are pure functions of the token list, the environment and the host
(the source mutates no shared state during parsing, and no property below
observes the environment left behind by a failed evaluation).
-/

/-- Python exception classes of the interpreter, plus the non-Grove exceptions
that can escape it. -/
inductive Err where
  | parseError (msg : String)
  | evalError (msg : String)
  | pyError (kind : String)
  | systemExit
deriving DecidableEq

/-- Python `str.isdigit` restricted to ASCII: nonempty and all characters
decimal digits. -/
def pyIsdigit (t : String) : Bool := !t.data.isEmpty && t.data.all (·.isDigit)

/-- Python `str.isalpha` restricted to ASCII. -/
def pyIsalpha (t : String) : Bool := !t.data.isEmpty && t.data.all (·.isAlpha)

/-- Python `str.isalnum` restricted to ASCII. -/
def pyIsalnum (t : String) : Bool := !t.data.isEmpty && t.data.all (·.isAlphanum)

/-- Value of Python `int(t)` for a digit string `t`. -/
def strToNat (t : String) : Nat := t.data.foldl (fun a c => a * 10 + (c.toNat - 48)) 0

/-- One step of Python `str.split()` with no separator argument: collect the
maximal runs of non-whitespace characters.  `cur` is the current run,
reversed. -/
def splitWSGo : List Char → List Char → List String
  | cur, [] => if cur.isEmpty then [] else [String.mk cur.reverse]
  | cur, c :: rest =>
    if c.isWhitespace then
      if cur.isEmpty then splitWSGo [] rest
      else String.mk cur.reverse :: splitWSGo [] rest
    else splitWSGo (c :: cur) rest

/-- Python `s.strip().split()`: the whitespace-delimited tokens of a line, in
order, never empty. -/
def tokenize (s : String) : List String := splitWSGo [] s.data

/-- Loop of `Expression.match_parens`: scan the remaining tokens with the
running nesting depth, returning the relative index of the first token after
which the depth is zero. -/
def matchParensGo : List String → Int → Except Err Nat
  | [], _ => .error (.parseError "No closing ) found")
  | t :: rest, depth =>
    let d : Int := if t = "(" then depth + 1 else if t = ")" then depth - 1 else depth
    if d = 0 then .ok 0 else (matchParensGo rest d).map (· + 1)

/-- `Expression.match_parens` (identical in `test_suite/grove_lang.py` and
`Calc/calc_lang.py`): searches tokens beginning with `(` and returns the index
of the matching `)`. -/
def match_parens (tokens : List String) : Except Err Nat :=
  if tokens.length < 2 then .error (.parseError "Expression too short")
  else if tokens.head? ≠ some "(" then .error (.parseError "No opening ( found")
  else matchParensGo tokens 0

/-- Dispatcher step shared by the `parse` factory methods: try one production;
a `GroveParseError` is swallowed (the `verbose` print changes no result) and
the next production is tried; any other exception propagates. -/
def tryProd {α : Type} (r : Except Err α) (next : Unit → Except Err α) : Except Err α :=
  match r with
  | .ok v => .ok v
  | .error (.parseError _) => next ()
  | .error e => .error e

namespace Grove

/-- Runtime values of the Grove interpreter: Python ints, strings, bools,
`None`, modules, and other host objects (classes, instances), the latter two
opaque. -/
inductive Value where
  | int (n : Int)
  | str (s : String)
  | bool (b : Bool)
  | none
  | module (name : String)
  | pyObj (desc : String)
deriving DecidableEq

/-- The variable environment: in `test_suite/grove_lang.py` this is the
module namespace `globals()`, a single mutable string-to-value mapping. -/
abbrev Env := List (String × Value)

/-- Dictionary lookup `k in env` / `env[k]`. -/
def envGet (env : Env) (k : String) : Option Value :=
  (env.find? (fun p => p.1 == k)).map (·.2)

/-- Dictionary update `env[k] = v`: overwrites any existing binding of `k`. -/
def envSet (env : Env) (k : String) (v : Value) : Env :=
  (k, v) :: env.filter (fun p => p.1 != k)

/-- Parse tree nodes, one constructor per `Expression` subclass of
`test_suite/grove_lang.py` (`Import` and `Terminate` subclass `Expression`
there).  `call` stores the receiver `Name` identifier, the method token and the
argument expressions; `objectV` stores the host value an `Object` node
resolved to. -/
inductive Expr where
  | num (n : Int)
  | str (s : String)
  | objectV (v : Value)
  | call (ref : String) (method : String) (args : List Expr)
  | add (first second : Expr)
  | name (n : String)
  | imp (mod : String)
  | term (t : String)

/-- A `Command`: either the single `Statement` subclass `Assignment`, or an
`Expression` node. -/
inductive Cmd where
  | assign (name : String) (value : Expr)
  | exprC (e : Expr)

/-- Host reflection interface: `dir`, `callable(getattr v m)`, method
invocation (error = the invocation raised), `importlib.import_module`, and the
reflective tail of `Object.parse` (dotted-path lookup in `globals()`, `dict`
membership, constructor call, `dir` indexing) which no claim exercises past its
guards. -/
structure Host where
  dir : Value → List String
  callableAttr : Value → String → Bool
  invoke : Value → String → List Value → Except Unit Value
  importModule : String → Except Unit Value
  objectLookup : Env → String → Except Err Expr

/-- `Number.parse`: exactly one token, composed only of digits. -/
def Number.parse (tokens : List String) : Except Err Expr :=
  match tokens with
  | [t] =>
    if !pyIsdigit t then .error (.parseError "Numbers can contain only digits")
    else .ok (.num (strToNat t))
  | _ => .error (.parseError ("Wrong number of tokens (" ++ toString tokens.length ++ ") for number"))

/-- `StringLiteral.parse` of `test_suite/grove_lang.py`.  The source checks
`tokens[0][0] != chr(34) or tokens[0][len(tokens) - 1] != chr(34)`; since the
length guard has already forced `len(tokens) == 1`, both subscripts are 0, so
only the first character is required to be a double quote.  It then returns
`tokens[0][1:(len(tokens)-2)]`, i.e. `tokens[0][1:-1]`: the token with its
first and last characters removed.  On an empty token, `tokens[0][0]` raises
IndexError. -/
def StringLiteral.parse (tokens : List String) : Except Err Expr :=
  match tokens with
  | [t] =>
    match t.data with
    | [] => .error (.pyError "IndexError")
    | c :: _ =>
      if c ≠ '"' then .error (.parseError "Needs quotes on the sides")
      else .ok (.str (String.mk ((t.data.drop 1).dropLast)))
  | _ => .error (.parseError "Wrong number of tokens for string")

/-- `Name.parse`: exactly one token; first character alphabetic
(`tokens[0][0].isalpha()`, IndexError on an empty token); after removing
underscores (`replace`) the token must be alphanumeric; the reserved word
`call` is rejected. -/
def Name.parse (tokens : List String) : Except Err Expr :=
  match tokens with
  | [t] =>
    match t.data with
    | [] => .error (.pyError "IndexError")
    | c :: _ =>
      if !c.isAlpha then .error (.parseError "Name must start with alpha")
      else if !pyIsalnum (String.mk (t.data.filter (fun ch => ch ≠ '_'))) then
        .error (.parseError "Names can contain letters")
      else if t = "call" then
        .error (.parseError "call is a protected word and not a valid name for your variable")
      else .ok (.name t)
  | _ => .error (.parseError "Wrong number of tokens for Name")

/-- `Import.parse`: exactly two tokens, the first being `import`. -/
def Import.parse (tokens : List String) : Except Err Expr :=
  match tokens with
  | [t0, t1] =>
    if t0 ≠ "import" then .error (.parseError "First token did not equal import")
    else .ok (.imp t1)
  | _ => .error (.parseError "Statement is wrong length for Import")

/-- `Terminate.parse`: at most one token (the length guard only rejects more
than one, so on an empty sequence `tokens[0]` raises IndexError); the token
must be `quit` or `exit`.  The trailing `try: term = tokens[0]` never fails. -/
def Terminate.parse (tokens : List String) : Except Err Expr :=
  if tokens.length > 1 then .error (.parseError "Statement is too long for Terminate")
  else
    match tokens with
    | [] => .error (.pyError "IndexError")
    | t :: _ =>
      if t ≠ "quit" ∧ t ≠ "exit" then
        .error (.parseError "Terminate statement must be either quit or exit")
      else .ok (.term t)

/-- `Object.parse`: exactly two tokens, the first being `new`; the rest of the
method (splitting the second token on dots and reflecting over `globals()`)
is the host operation `Host.objectLookup`, which receives the environment
because the source consults `globals()` — the same mapping the interpreter
uses as its variable environment. -/
def Object.parse (host : Host) (env : Env) (tokens : List String) : Except Err Expr :=
  match tokens with
  | [t0, t1] =>
    if t0 ≠ "new" then .error (.parseError ("Did not find new instead found " ++ t0))
    else host.objectLookup env t1
  | _ => .error (.parseError ("Wrong amount of tokens for parsing object: " ++ String.intercalate " " tokens))

mutual

/-- `Expression.parse`: try each `Expression` subclass in class-definition
order (`Number`, `StringLiteral`, `Object`, `Call`, `Addition`, `Name`,
`Import`, `Terminate`), returning the first success; a production raising
`GroveParseError` is swallowed and the next is tried; if all fail, raise the
aggregate `Unrecognized Expression` parse error. -/
def Expression.parse (host : Host) (env : Env) (tokens : List String) : Except Err Expr :=
  tryProd (Number.parse tokens) fun _ =>
  tryProd (StringLiteral.parse tokens) fun _ =>
  tryProd (Object.parse host env tokens) fun _ =>
  tryProd (Call.parse host env tokens) fun _ =>
  tryProd (Addition.parse host env tokens) fun _ =>
  tryProd (Name.parse tokens) fun _ =>
  tryProd (Import.parse tokens) fun _ =>
  tryProd (Terminate.parse tokens) fun _ =>
  .error (.parseError ("Unrecognized Expression: " ++ String.intercalate " " tokens))
termination_by (tokens.length, 1)
decreasing_by
  all_goals simp [Prod.lex_def]

/-- `Addition.parse`: at least 7 tokens, beginning `+ (`; the first operand is
carved out with `match_parens` over `tokens[1:]` and parsed from
`tokens[2:cut]` (a `GroveParseError` from either becomes the
first-additionend error); the remaining tokens `tokens[cut+1:]` must have
length at least 3, begin with `(` and end with `)`, and their interior must
parse as an expression. -/
def Addition.parse (host : Host) (env : Env) (tokens : List String) : Except Err Expr :=
  let s := String.intercalate " " tokens
  if _h7 : tokens.length < 7 then .error (.parseError ("Not enough tokens for Addition in " ++ s))
  else if tokens.headD "" ≠ "+" ∨ tokens[1]? ≠ some "(" then
    .error (.parseError ("Addition must begin with + ( in " ++ s))
  else
    match match_parens (tokens.drop 1) with
    | .error (.parseError _) => .error (.parseError ("Unable to find first Additionend in " ++ s))
    | .error e => .error e
    | .ok i =>
      let cut := i + 1
      match Expression.parse host env ((tokens.drop 2).take (cut - 2)) with
      | .error (.parseError _) => .error (.parseError ("Unable to find first Additionend in " ++ s))
      | .error e => .error e
      | .ok first =>
        let rest := tokens.drop (cut + 1)
        if rest.length < 3 then .error (.parseError ("Not enough tokens for Addition in " ++ s))
        else if rest.headD "" ≠ "(" ∨ rest.getLast? ≠ some ")" then
          .error (.parseError ("Additionneds must be wrapped in (): " ++ s))
        else
          match Expression.parse host env ((rest.drop 1).dropLast) with
          | .error (.parseError _) => .error (.parseError ("Unable to find the second Additionend in " ++ s))
          | .error e => .error e
          | .ok second => .ok (.add first second)
termination_by (tokens.length, 0)
decreasing_by
  all_goals simp_wf
  all_goals simp [Prod.lex_def, List.length_take, List.length_dropLast]
  all_goals omega

/-- `Call.parse`: at least 5 tokens, shape `call ( <name> <method> ... )`;
the receiver is `Name.parse(tokens[2:3])` (whose failure propagates out of
`Call.parse` uncaught); the method is the raw token `tokens[3]`; the argument
tokens `tokens[4:-1]` are split by `Call.parseArgs`. -/
def Call.parse (host : Host) (env : Env) (tokens : List String) : Except Err Expr :=
  if _h5 : tokens.length < 5 then
    .error (.parseError ("Wrong number of tokens (" ++ toString tokens.length ++ ") for Call"))
  else if tokens.headD "" ≠ "call" then
    .error (.parseError ("Expected call but found " ++ tokens.headD ""))
  else if tokens[1]? ≠ some "(" then .error (.parseError "Expected ( but found another token")
  else if tokens.getLast? ≠ some ")" then .error (.parseError "Expected ) but found another token")
  else
    match Name.parse ((tokens.drop 2).take 1) with
    | .error e => .error e
    | .ok (.name ref) =>
      let paramTokens := (tokens.drop 4).dropLast
      .ok (.call ref (tokens.getD 3 "")
        (Call.parseArgs host env (List.range (paramTokens.length + 1)) paramTokens []))
    | .ok _ => .error (.pyError "unreachable")
termination_by (tokens.length, 0)
decreasing_by
  all_goals simp_wf
  all_goals simp [Prod.lex_def, List.length_dropLast]
  all_goals omega

/-- Argument loop of `Call.parse`: `for i in range(len(paramTokens) + 1)`,
with `paramTokens` reassigned inside the loop: try to parse the prefix
`paramTokens[0:i]` of the current remainder as an expression; on success
append it and drop that prefix, on any failure (bare `except: pass`) keep the
remainder and move on.  Leftover tokens are silently dropped. -/
def Call.parseArgs (host : Host) (env : Env) (idxs : List Nat) (paramTokens : List String)
    (args : List Expr) : List Expr :=
  match idxs with
  | [] => args
  | i :: rest =>
    match Expression.parse host env (paramTokens.take i) with
    | .ok e => Call.parseArgs host env rest (paramTokens.drop i) (args ++ [e])
    | .error _ => Call.parseArgs host env rest paramTokens args
termination_by (paramTokens.length + 1, idxs.length)
decreasing_by
  all_goals simp_wf
  all_goals simp [Prod.lex_def, List.length_take, List.length_drop]
  all_goals omega

end

/-- `Name.eval`: look the identifier up in the environment (`globals()`), or
raise `GroveEvalError` if absent. -/
def Name.eval (env : Env) (n : String) : Except Err Value :=
  match envGet env n with
  | some v => .ok v
  | Option.none => .error (.evalError (n ++ " is undefined"))

/-- Python `+` on the values reachable here: int/bool arithmetic (bools are
ints), string concatenation; every other combination (None, modules, class
objects — none of which define `+`) raises TypeError. -/
def pyAdd : Value → Value → Except Err Value
  | .int a, .int b => .ok (.int (a + b))
  | .int a, .bool b => .ok (.int (a + (if b then 1 else 0)))
  | .bool a, .int b => .ok (.int ((if a then 1 else 0) + b))
  | .bool a, .bool b => .ok (.int ((if a then 1 else 0) + (if b then 1 else 0)))
  | .str a, .str b => .ok (.str (a ++ b))
  | _, _ => .error (.pyError "TypeError")

mutual

/-- `eval` of each `Expression` subclass.  `Number`, `StringLiteral`, `Object`
return their payload; `Name` looks up the environment; `Addition` evaluates
both operands left to right (threading the environment, since an operand can
be an `Import`) and adds; `Import.eval` binds the imported module under its
own name and returns None; `Terminate.eval` calls `sys.exit()`. -/
def Expression.eval (host : Host) (env : Env) (e : Expr) : Except Err (Env × Value) :=
  match e with
  | .num n => .ok (env, .int n)
  | .str s => .ok (env, .str s)
  | .objectV v => .ok (env, v)
  | .name n =>
    match Name.eval env n with
    | .ok v => .ok (env, v)
    | .error err => .error err
  | .add first second =>
    match Expression.eval host env first with
    | .error err => .error err
    | .ok (env1, v1) =>
      match Expression.eval host env1 second with
      | .error err => .error err
      | .ok (env2, v2) =>
        match pyAdd v1 v2 with
        | .ok v => .ok (env2, v)
        | .error err => .error err
  | .call ref method args => Call.eval host env ref method args
  | .imp m =>
    match host.importModule m with
    | .ok v => .ok (envSet env m v, .none)
    | .error _ => .error (.pyError "ModuleNotFoundError")
  | .term _ => .error .systemExit
termination_by (sizeOf e, 0)
decreasing_by
  all_goals simp [Prod.lex_def]
  all_goals omega

/-- `Call.eval`: re-evaluate the receiver `Name` (any failure — it can only be
the undefined-name `GroveEvalError` — is caught by a bare `except:` and
re-raised as not-defined-in-scope); check the method against `dir` of the
receiver value, then `callable`; finally evaluate the arguments left to right
and invoke.  The bare `except:` around the invocation turns ANY exception from
argument evaluation or from the call itself into a `GroveParseError` carrying
the incorrect-number-of-parameters message. -/
def Call.eval (host : Host) (env : Env) (ref method : String) (args : List Expr) :
    Except Err (Env × Value) :=
  match Name.eval env ref with
  | .error _ => .error (.evalError (ref ++ " not defined in scope."))
  | .ok v =>
    if method ∈ host.dir v then
      if host.callableAttr v method then
        match Call.evalArgs host env args with
        | .error _ =>
          .error (.parseError ("incorrect number of parameters for " ++ method ++
            " (" ++ toString args.length ++ " given)"))
        | .ok (env2, vs) =>
          match host.invoke v method vs with
          | .error _ =>
            .error (.parseError ("incorrect number of parameters for " ++ method ++
              " (" ++ toString args.length ++ " given)"))
          | .ok rv => .ok (env2, rv)
      else .error (.evalError (method ++ " not callable on " ++ ref))
    else .error (.evalError (method ++ " not defined for " ++ ref))
termination_by (sizeOf args, 1)
decreasing_by
  all_goals simp [Prod.lex_def]

/-- The list comprehension `[arg.eval() for arg in self.args]`: evaluate the
arguments left to right, threading the environment. -/
def Call.evalArgs (host : Host) (env : Env) (args : List Expr) :
    Except Err (Env × List Value) :=
  match args with
  | [] => .ok (env, [])
  | a :: rest =>
    match Expression.eval host env a with
    | .error err => .error err
    | .ok (env1, v) =>
      match Call.evalArgs host env1 rest with
      | .error err => .error err
      | .ok (env2, vs) => .ok (env2, v :: vs)
termination_by (sizeOf args, 0)
decreasing_by
  all_goals simp [Prod.lex_def]
  all_goals omega

end

/-- `Assignment.parse`: at least 4 tokens, `set <name> = <expr>`; a
`GroveParseError` from `Name.parse([tokens[1]])` or from
`Expression.parse(tokens[3:])` is caught and re-raised with the
assignment-specific message. -/
def Assignment.parse (host : Host) (env : Env) (tokens : List String) : Except Err Cmd :=
  if tokens.length < 4 then .error (.parseError "Statement is too short for Assignment")
  else if tokens.headD "" ≠ "set" then
    .error (.parseError "Assignment statements must begin with Assignment")
  else
    match Name.parse [tokens.getD 1 ""] with
    | .error (.parseError _) => .error (.parseError "No name found for Assignment statement")
    | .error e => .error e
    | .ok (.name nm) =>
      if tokens.getD 2 "" ≠ "=" then .error (.parseError "Assignment statement requires =")
      else
        match Expression.parse host env (tokens.drop 3) with
        | .error (.parseError _) => .error (.parseError "No valuse found for Assignment statement")
        | .error e => .error e
        | .ok value => .ok (.assign nm value)
    | .ok _ => .error (.pyError "unreachable")

/-- `Statement.parse`: try `Assignment`, then `Terminate`, then `Import`
(`Terminate` and `Import` return `Expression` nodes, wrapped here as
commands); swallow `GroveParseError` from each attempt; if all fail, raise the
aggregate unrecognized-command parse error.  Any other exception (such as the
IndexError `Terminate.parse` raises on an empty sequence) propagates. -/
def Statement.parse (host : Host) (env : Env) (tokens : List String) : Except Err Cmd :=
  tryProd (Assignment.parse host env tokens) fun _ =>
  tryProd ((Terminate.parse tokens).map Cmd.exprC) fun _ =>
  tryProd ((Import.parse tokens).map Cmd.exprC) fun _ =>
  .error (.parseError ("Unrecognized Command on tokens: " ++ String.intercalate " " tokens))

/-- Token-level body of `Command.parse`: try `Statement.parse`, then
`Expression.parse`, swallowing `GroveParseError` from each; if both fail,
raise the aggregate `Unrecognized Command` error mentioning the original
line `s`. -/
def Command.parseTokens (host : Host) (env : Env) (s : String) (tokens : List String) :
    Except Err Cmd :=
  tryProd (Statement.parse host env tokens) fun _ =>
  tryProd ((Expression.parse host env tokens).map Cmd.exprC) fun _ =>
  .error (.parseError ("Unrecognized Command: " ++ s))

/-- `Command.parse`: tokenize the line with `s.strip().split()` and dispatch. -/
def Command.parse (host : Host) (env : Env) (s : String) : Except Err Cmd :=
  Command.parseTokens host env s (tokenize s)

/-- `eval` of a `Command`: `Assignment.eval` evaluates the right-hand side and
binds it (returning None); an expression command returns its value. -/
def Command.eval (host : Host) (env : Env) : Cmd → Except Err (Env × Value)
  | .assign nm value =>
    match Expression.eval host env value with
    | .error err => .error err
    | .ok (env1, v) => .ok (envSet env1 nm v, .none)
  | .exprC e => Expression.eval host env e

/-- Parse a token sequence as a command and evaluate it (the REPL body for
one line, at token level). -/
def runTokens (host : Host) (env : Env) (tokens : List String) : Except Err (Env × Value) :=
  match Command.parseTokens host env (String.intercalate " " tokens) tokens with
  | .error e => .error e
  | .ok c => Command.eval host env c

/-- Evaluate a sequence of already-parsed commands, threading the
environment. -/
def evalCmds (host : Host) (env : Env) : List Cmd → Except Err Env
  | [] => .ok env
  | c :: rest =>
    match Command.eval host env c with
    | .error e => .error e
    | .ok (env1, _) => evalCmds host env1 rest

/-- Module-level bindings of `test_suite/grove_lang.py`, in definition order:
the interpreter uses `globals()` as its variable environment, so these names
are bound before any user command runs.  (CPython also binds dunder names such
as `__name__`; they are omitted here, as no claim mentions them.) -/
def initialGlobals : Env :=
  [("re", .module "re"), ("sys", .module "sys"), ("importlib", .module "importlib"),
   ("builtins", .module "builtins"), ("verbose", .bool false),
   ("GroveError", .pyObj "class GroveError"), ("GroveParseError", .pyObj "class GroveParseError"),
   ("GroveEvalError", .pyObj "class GroveEvalError"), ("Command", .pyObj "class Command"),
   ("Expression", .pyObj "class Expression"), ("Statement", .pyObj "class Statement"),
   ("Number", .pyObj "class Number"), ("StringLiteral", .pyObj "class StringLiteral"),
   ("Object", .pyObj "class Object"), ("Call", .pyObj "class Call"),
   ("Addition", .pyObj "class Addition"), ("Name", .pyObj "class Name"),
   ("Assignment", .pyObj "class Assignment"), ("Import", .pyObj "class Import"),
   ("Terminate", .pyObj "class Terminate")]

/-- A minimal host: no object exposes attributes, every invocation and import
fails, and `Object.parse` reflection finds nothing (raising the parse error
the source raises in that case). -/
def host0 : Host :=
  { dir := fun _ => [], callableAttr := fun _ _ => false,
    invoke := fun _ _ _ => .error (), importModule := fun _ => .error (),
    objectLookup := fun _ _ => .error (.parseError "Couldnt find the object in modules") }

end Grove

namespace GroveMain

/-- `StringLiteral.parse` of the unfinished `src/grove_lang.py`: exactly one
token, returned literally (the node stores the raw token). -/
def StringLiteral.parse (tokens : List String) : Except Err String :=
  match tokens with
  | [t] => .ok t
  | _ => .error (.parseError "Wrong number of tokens for string")

/-- `StringLiteral.eval` of `src/grove_lang.py`: return the stored string. -/
def StringLiteral.eval (s : String) : String := s

end GroveMain

namespace Calc

/-- Parse tree nodes of `Calc/calc_lang.py`, one constructor per `Expression`
subclass. -/
inductive Expr where
  | add (first second : Expr)
  | sub (first second : Expr)
  | num (n : Int)
  | name (n : String)

/-- A Calc `Command`: the single statement `Set`, or an expression. -/
inductive Cmd where
  | set (name : String) (value : Expr)
  | exprC (e : Expr)

/-- The Calc variable environment `context : dict[str,int]`, initially
empty. -/
abbrev Env := List (String × Int)

/-- Dictionary lookup in the Calc context. -/
def envGet (env : Env) (k : String) : Option Int :=
  (env.find? (fun p => p.1 == k)).map (·.2)

/-- Dictionary update in the Calc context: overwrites any existing binding. -/
def envSet (env : Env) (k : String) (v : Int) : Env :=
  (k, v) :: env.filter (fun p => p.1 != k)

/-- Calc `Number.parse`: exactly one token composed of digits. -/
def Number.parse (tokens : List String) : Except Err Expr :=
  match tokens with
  | [t] =>
    if !pyIsdigit t then .error (.parseError "Numbers can contain only digits")
    else .ok (.num (strToNat t))
  | _ => .error (.parseError ("Wrong number of tokens (" ++ toString tokens.length ++ ") for number"))

/-- Calc `Name.parse`: exactly one token, `tokens[0].isalpha()` (all
characters alphabetic, so nonempty; empty strings fail the check without
raising). -/
def Name.parse (tokens : List String) : Except Err Expr :=
  match tokens with
  | [t] =>
    if !pyIsalpha t then .error (.parseError "Names can contain letters")
    else .ok (.name t)
  | _ => .error (.parseError "Wrong number of tokens for Name")

mutual

/-- Calc `Expression.parse`: try each `Expression` subclass in
class-definition order (`Add`, `Subtract`, `Number`, `Name`). -/
def Expression.parse (tokens : List String) : Except Err Expr :=
  tryProd (Add.parse tokens) fun _ =>
  tryProd (Subtract.parse tokens) fun _ =>
  tryProd (Number.parse tokens) fun _ =>
  tryProd (Name.parse tokens) fun _ =>
  .error (.parseError ("Unrecognized Expression: " ++ String.intercalate " " tokens))
termination_by (tokens.length, 1)
decreasing_by
  all_goals simp [Prod.lex_def]

/-- Calc `Add.parse`: same shape as Grove `Addition.parse`, with operator
token `+`. -/
def Add.parse (tokens : List String) : Except Err Expr :=
  let s := String.intercalate " " tokens
  if _h7 : tokens.length < 7 then .error (.parseError ("Not enough tokens for Add in " ++ s))
  else if tokens.headD "" ≠ "+" ∨ tokens[1]? ≠ some "(" then
    .error (.parseError ("Add must begin with + ( in " ++ s))
  else
    match match_parens (tokens.drop 1) with
    | .error (.parseError _) => .error (.parseError ("Unable to find first addend in " ++ s))
    | .error e => .error e
    | .ok i =>
      let cut := i + 1
      match Expression.parse ((tokens.drop 2).take (cut - 2)) with
      | .error (.parseError _) => .error (.parseError ("Unable to find first addend in " ++ s))
      | .error e => .error e
      | .ok first =>
        let rest := tokens.drop (cut + 1)
        if rest.length < 3 then .error (.parseError ("Not enough tokens for Add in " ++ s))
        else if rest.headD "" ≠ "(" ∨ rest.getLast? ≠ some ")" then
          .error (.parseError ("Addneds must be wrapped in (): " ++ s))
        else
          match Expression.parse ((rest.drop 1).dropLast) with
          | .error (.parseError _) => .error (.parseError ("Unable to find the second addend in " ++ s))
          | .error e => .error e
          | .ok second => .ok (.add first second)
termination_by (tokens.length, 0)
decreasing_by
  all_goals simp [Prod.lex_def, List.length_take, List.length_dropLast]
  all_goals omega

/-- Calc `Subtract.parse`: same shape, with operator token `-`. -/
def Subtract.parse (tokens : List String) : Except Err Expr :=
  let s := String.intercalate " " tokens
  if _h7 : tokens.length < 7 then .error (.parseError ("Not enough tokens for Subtract in " ++ s))
  else if tokens.headD "" ≠ "-" ∨ tokens[1]? ≠ some "(" then
    .error (.parseError ("Add must begin with - ( in " ++ s))
  else
    match match_parens (tokens.drop 1) with
    | .error (.parseError _) => .error (.parseError ("Unable to find first minuend in " ++ s))
    | .error e => .error e
    | .ok i =>
      let cut := i + 1
      match Expression.parse ((tokens.drop 2).take (cut - 2)) with
      | .error (.parseError _) => .error (.parseError ("Unable to find first minuend in " ++ s))
      | .error e => .error e
      | .ok first =>
        let rest := tokens.drop (cut + 1)
        if rest.length < 3 then .error (.parseError ("Not enough tokens for Subtract in " ++ s))
        else if rest.headD "" ≠ "(" ∨ rest.getLast? ≠ some ")" then
          .error (.parseError ("Subtrahends must be wrapped in (): " ++ s))
        else
          match Expression.parse ((rest.drop 1).dropLast) with
          | .error (.parseError _) => .error (.parseError ("Unable to find the second subtrahend in " ++ s))
          | .error e => .error e
          | .ok second => .ok (.sub first second)
termination_by (tokens.length, 0)
decreasing_by
  all_goals simp [Prod.lex_def, List.length_take, List.length_dropLast]
  all_goals omega

end

/-- Calc `Set.parse`: at least 4 tokens, `set <name> = <expr>`, with
`CalcParseException` from the name or value parse re-raised with the
set-specific message. -/
def Set.parse (tokens : List String) : Except Err Cmd :=
  if tokens.length < 4 then .error (.parseError "Statement is too short for Set")
  else if tokens.headD "" ≠ "set" then .error (.parseError "Set statements must begin with set")
  else
    match Name.parse [tokens.getD 1 ""] with
    | .error (.parseError _) => .error (.parseError "No name found for Set statement")
    | .error e => .error e
    | .ok (.name nm) =>
      if tokens.getD 2 "" ≠ "=" then .error (.parseError "Set statement requires =")
      else
        match Expression.parse (tokens.drop 3) with
        | .error (.parseError _) => .error (.parseError "No valuse found for Set statement")
        | .error e => .error e
        | .ok value => .ok (.set nm value)
    | .ok _ => .error (.pyError "unreachable")

/-- Calc `Statement.parse`: the only statement is `Set`; its result (or
exception) passes through unchanged. -/
def Statement.parse (tokens : List String) : Except Err Cmd :=
  Set.parse tokens

/-- Token-level body of Calc `Command.parse`. -/
def Command.parseTokens (s : String) (tokens : List String) : Except Err Cmd :=
  tryProd (Statement.parse tokens) fun _ =>
  tryProd ((Expression.parse tokens).map Cmd.exprC) fun _ =>
  .error (.parseError ("Unrecognized Command: " ++ s))

/-- Calc `Command.parse`: tokenize and dispatch. -/
def Command.parse (s : String) : Except Err Cmd :=
  Command.parseTokens s (tokenize s)

/-- Calc `eval` of each `Expression` subclass: `Add`/`Subtract` combine both
operand evaluations, `Number` returns its value, `Name` looks up the context
or raises `CalcEvalException`. -/
def Expression.eval (env : Env) : Expr → Except Err Int
  | .num n => .ok n
  | .name n =>
    match envGet env n with
    | some v => .ok v
    | Option.none => .error (.evalError (n ++ " is undefined"))
  | .add first second =>
    match Expression.eval env first with
    | .error e => .error e
    | .ok v1 =>
      match Expression.eval env second with
      | .error e => .error e
      | .ok v2 => .ok (v1 + v2)
  | .sub first second =>
    match Expression.eval env first with
    | .error e => .error e
    | .ok v1 =>
      match Expression.eval env second with
      | .error e => .error e
      | .ok v2 => .ok (v1 - v2)

/-- Calc `eval` of a command: `Set.eval` binds the evaluated value (returning
None, here `Option.none`); an expression command returns its value. -/
def Command.eval (env : Env) : Cmd → Except Err (Env × Option Int)
  | .set nm value =>
    match Expression.eval env value with
    | .error e => .error e
    | .ok v => .ok (envSet env nm v, Option.none)
  | .exprC e =>
    match Expression.eval env e with
    | .error e => .error e
    | .ok v => .ok (env, some v)

/-- Parse a token sequence as a Calc command and evaluate it. -/
def runTokens (env : Env) (tokens : List String) : Except Err (Env × Option Int) :=
  match Command.parseTokens (String.intercalate " " tokens) tokens with
  | .error e => .error e
  | .ok c => Command.eval env c

end Calc

set_option maxRecDepth 8000

/-- One step of the nesting-depth counter: incremented on `(`, decremented on
`)`, unchanged otherwise. -/
def parenStep (d : Int) (t : String) : Int :=
  if t = "(" then d + 1 else if t = ")" then d - 1 else d

/-- Running nesting depth of a token sequence, starting from 0 (the
specification-side counter used to state the `match_parens` contract). -/
def parenDepth (ts : List String) : Int := ts.foldl parenStep 0

/-- Specification-side wording of a valid Grove name: at least one character,
first character alphabetic, remaining characters alphanumeric or underscore,
and not the reserved word `call`. -/
def validName (t : String) : Prop :=
  (∃ c cs, t.data = c :: cs ∧ c.isAlpha = true) ∧
  (∀ ch ∈ t.data.drop 1, ch.isAlphanum = true ∨ ch = '_') ∧ t ≠ "call"

/-- C9: on the empty token sequence (a blank or whitespace-only line),
`Command.parse` does not raise the aggregate `GroveParseError`:
`Assignment.parse` fails with a parse error, but `Terminate.parse` evaluates
`tokens[0]` without a nonemptiness check and raises IndexError, which the
dispatchers (catching only `GroveParseError`) let escape to the caller. -/
theorem claim_C9 :
    (∀ (host : Grove.Host) (env : Grove.Env) (s : String),
      Grove.Command.parseTokens host env s [] = .error (.pyError "IndexError")) ∧
    tokenize "" = [] ∧ tokenize "   " = [] ∧
    Grove.Command.parse Grove.host0 Grove.initialGlobals "" = .error (.pyError "IndexError") ∧
    Grove.Command.parse Grove.host0 Grove.initialGlobals "   " = .error (.pyError "IndexError") := by
  have hterm : Grove.Terminate.parse ([] : List String) = .error (.pyError "IndexError") := rfl
  have hbase : ∀ (host : Grove.Host) (env : Grove.Env) (s : String),
      Grove.Command.parseTokens host env s [] = .error (.pyError "IndexError") := by
    intro host env s
    simp [Grove.Command.parseTokens, Grove.Statement.parse, Grove.Assignment.parse, hterm,
      tryProd, Except.map]
  refine ⟨hbase, rfl, rfl, ?_, ?_⟩
  · have h : tokenize "" = [] := rfl
    rw [Grove.Command.parse, h]; exact hbase _ _ _
  · have h : tokenize "   " = [] := rfl
    rw [Grove.Command.parse, h]; exact hbase _ _ _

/-- C10: `call ( x m ( )` is a Call whose trailing argument token `(` parses
as no Expression, yet `Call.parse` succeeds (each failed candidate-prefix
parse is swallowed by the bare `except`) and returns a Call node whose
argument list is empty, silently omitting the token; the whole line parses
without any `GroveParseError`. -/
theorem claim_C10 :
    Grove.Call.parse Grove.host0 [] ["call", "(", "x", "m", "(", ")"] =
      .ok (.call "x" "m" []) ∧
    Grove.Expression.parse Grove.host0 [] ["("] =
      .error (.parseError "Unrecognized Expression: (") ∧
    Grove.Command.parseTokens Grove.host0 [] "call ( x m ( )" ["call", "(", "x", "m", "(", ")"] =
      .ok (.exprC (.call "x" "m" [])) := by
  have hname : Grove.Name.parse ["x"] = .ok (.name "x") := rfl
  have hnum : Grove.Number.parse ["("] = .error (.parseError "Numbers can contain only digits") := rfl
  have hstr : Grove.StringLiteral.parse ["("] = .error (.parseError "Needs quotes on the sides") := rfl
  have hnamep : Grove.Name.parse ["("] = .error (.parseError "Name must start with alpha") := rfl
  have hterm : Grove.Terminate.parse ["("] =
      .error (.parseError "Terminate statement must be either quit or exit") := rfl
  have htermE : Grove.Terminate.parse ([] : List String) = .error (.pyError "IndexError") := rfl
  have hexparen : Grove.Expression.parse Grove.host0 [] ["("] =
      .error (.parseError "Unrecognized Expression: (") := by
    simp [Grove.Expression.parse, hnum, hstr, hnamep, hterm, Grove.Object.parse,
      Grove.Call.parse, Grove.Addition.parse, Grove.Import.parse, tryProd, Grove.host0]
    decide
  have hexE : Grove.Expression.parse Grove.host0 [] [] = .error (.pyError "IndexError") := by
    simp [Grove.Expression.parse, Grove.Number.parse, Grove.StringLiteral.parse, Grove.Name.parse,
      htermE, Grove.Object.parse, Grove.Call.parse, Grove.Addition.parse, Grove.Import.parse,
      tryProd]
  have hcall : Grove.Call.parse Grove.host0 [] ["call", "(", "x", "m", "(", ")"] =
      .ok (.call "x" "m" []) := by
    rw [Grove.Call.parse]
    simp [hname, Grove.Call.parseArgs, List.range_succ, hexE, hexparen]
  refine ⟨hcall, hexparen, ?_⟩
  have hassign : Grove.Assignment.parse Grove.host0 [] ["call", "(", "x", "m", "(", ")"] =
      .error (.parseError "Assignment statements must begin with Assignment") := by
    simp [Grove.Assignment.parse]
  simp [Grove.Command.parseTokens, Grove.Statement.parse, hassign, Grove.Terminate.parse,
    Grove.Import.parse, Grove.Expression.parse, Grove.Number.parse, Grove.StringLiteral.parse,
    Grove.Object.parse, hcall, tryProd, Except.map]

/-- Unfolding of `matchParensGo` on a cons cell in terms of `parenStep`. -/
theorem matchParensGo_cons (t : String) (rest : List String) (d : Int) :
    matchParensGo (t :: rest) d =
      if parenStep d t = 0 then .ok 0 else (matchParensGo rest (parenStep d t)).map (· + 1) :=
  rfl

/-- Loop invariant of `match_parens`: starting the scan at depth `d`, the
returned index is exactly the first position at which the running depth hits
zero. -/
theorem matchParensGo_ok_iff (ts : List String) : ∀ (d : Int) (i : Nat),
    matchParensGo ts d = .ok i ↔
      (i < ts.length ∧ (ts.take (i + 1)).foldl parenStep d = 0 ∧
       ∀ j < i, (ts.take (j + 1)).foldl parenStep d ≠ 0) := by
  induction ts with
  | nil => intro d i; simp [matchParensGo]
  | cons t rest ih =>
    intro d i
    rw [matchParensGo_cons]
    by_cases hd : parenStep d t = 0
    · rw [if_pos hd]
      cases i with
      | zero => simp [hd, List.take_succ_cons]
      | succ k =>
        simp only [List.take_succ_cons]
        constructor
        · intro h; exact absurd h (by simp)
        · rintro ⟨-, -, hall⟩
          exact absurd (by simpa [List.take_succ_cons] using hall 0 (Nat.succ_pos k)) (by simp [hd])
    · rw [if_neg hd]
      cases i with
      | zero =>
        constructor
        · intro h
          cases hr : matchParensGo rest (parenStep d t) <;> simp [hr, Except.map] at h
        · rintro ⟨-, h0, -⟩
          exact absurd (by simpa [List.take_succ_cons] using h0) hd
      | succ k =>
        have hmap : (matchParensGo rest (parenStep d t)).map (· + 1) = .ok (k + 1) ↔
            matchParensGo rest (parenStep d t) = .ok k := by
          cases hr : matchParensGo rest (parenStep d t) <;> simp [Except.map]
        rw [hmap, ih (parenStep d t) k]
        simp only [List.take_succ_cons, List.foldl_cons, List.length_cons]
        constructor
        · rintro ⟨hk, hz, hleast⟩
          refine ⟨by omega, hz, ?_⟩
          intro j hj
          cases j with
          | zero => simpa [List.take_succ_cons] using hd
          | succ j0 => simpa [List.take_succ_cons] using hleast j0 (by omega)
        · rintro ⟨hk, hz, hleast⟩
          refine ⟨by omega, hz, ?_⟩
          intro j hj
          simpa [List.take_succ_cons] using hleast (j + 1) (by omega)

/-- The scan either returns an index or raises the no-closing-paren error. -/
theorem matchParensGo_total (ts : List String) : ∀ d : Int,
    (∃ i, matchParensGo ts d = .ok i) ∨
      matchParensGo ts d = .error (.parseError "No closing ) found") := by
  induction ts with
  | nil => intro d; exact Or.inr rfl
  | cons t rest ih =>
    intro d
    rw [matchParensGo_cons]
    by_cases hd : parenStep d t = 0
    · exact Or.inl ⟨0, by rw [if_pos hd]⟩
    · rw [if_neg hd]
      rcases ih (parenStep d t) with ⟨i, hi⟩ | herr
      · exact Or.inl ⟨i + 1, by rw [hi]; rfl⟩
      · exact Or.inr (by rw [herr]; rfl)

/-- C2: `match_parens` fails with a parse error on fewer than 2 tokens, or
when the sequence does not begin with `(`; on success it returns exactly the
first index at which the running nesting depth (up on `(`, down on `)`)
returns to zero; it fails with a parse error when the sequence ends before
the depth returns to zero; and the nested command `+ ( 1 ) ( - ( 5 ) ( 2 ) )`
parses and evaluates to 4. -/
theorem claim_C2 :
    (∀ ts : List String, ts.length < 2 →
      match_parens ts = .error (.parseError "Expression too short")) ∧
    (∀ ts : List String, 2 ≤ ts.length → ts.head? ≠ some "(" →
      match_parens ts = .error (.parseError "No opening ( found")) ∧
    (∀ (ts : List String) (i : Nat), match_parens ts = .ok i →
      parenDepth (ts.take (i + 1)) = 0 ∧ ∀ j < i, parenDepth (ts.take (j + 1)) ≠ 0) ∧
    (∀ ts : List String, 2 ≤ ts.length → ts.head? = some "(" →
      (∀ j < ts.length, parenDepth (ts.take (j + 1)) ≠ 0) →
      match_parens ts = .error (.parseError "No closing ) found")) ∧
    Calc.runTokens [] ["+", "(", "1", ")", "(", "-", "(", "5", ")", "(", "2", ")", ")"] =
      .ok ([], some 4) := by
  refine ⟨?_, ?_, ?_, ?_, ?_⟩
  · intro ts h
    rw [match_parens, if_pos h]
  · intro ts h hhead
    rw [match_parens, if_neg (by omega), if_pos hhead]
  · intro ts i h
    rw [match_parens] at h
    split at h
    · exact absurd h (by simp)
    · split at h
      · exact absurd h (by simp)
      · have := (matchParensGo_ok_iff ts 0 i).mp h
        exact ⟨this.2.1, this.2.2⟩
  · intro ts hlen hhead hnone
    rw [match_parens, if_neg (by omega), if_neg (by simp [hhead])]
    rcases matchParensGo_total ts 0 with ⟨i, hi⟩ | herr
    · have := (matchParensGo_ok_iff ts 0 i).mp hi
      exact absurd this.2.1 (hnone i this.1)
    · exact herr
  · have hn1 : Calc.Number.parse ["1"] = .ok (.num 1) := rfl
    have hn5 : Calc.Number.parse ["5"] = .ok (.num 5) := rfl
    have hn2 : Calc.Number.parse ["2"] = .ok (.num 2) := rfl
    have hmOuter : match_parens ["(", "1", ")", "(", "-", "(", "5", ")", "(", "2", ")", ")"] =
        .ok 2 := rfl
    have hmInner : match_parens ["(", "5", ")", "(", "2", ")"] = .ok 2 := rfl
    have hsub : Calc.Expression.parse ["-", "(", "5", ")", "(", "2", ")"] =
        .ok (.sub (.num 5) (.num 2)) := by
      simp [Calc.Expression.parse, Calc.Add.parse, Calc.Subtract.parse, hmInner, hn5, hn2, tryProd]
    have hadd : Calc.Expression.parse
        ["+", "(", "1", ")", "(", "-", "(", "5", ")", "(", "2", ")", ")"] =
        .ok (.add (.num 1) (.sub (.num 5) (.num 2))) := by
      rw [Calc.Expression.parse]
      rw [show Calc.Add.parse ["+", "(", "1", ")", "(", "-", "(", "5", ")", "(", "2", ")", ")"] =
        .ok (.add (.num 1) (.sub (.num 5) (.num 2))) from ?_]
      · rfl
      · rw [Calc.Add.parse]
        simp [hmOuter, hn1, hsub, Calc.Expression.parse, Calc.Add.parse, Calc.Subtract.parse,
          tryProd]
    have hset : Calc.Set.parse ["+", "(", "1", ")", "(", "-", "(", "5", ")", "(", "2", ")", ")"] =
        .error (.parseError "Set statements must begin with set") := by
      simp [Calc.Set.parse]
    simp [Calc.runTokens, Calc.Command.parseTokens, Calc.Statement.parse, hset, hadd, tryProd,
      Except.map, Calc.Command.eval, Calc.Expression.eval]

/-- Witness for C2: each hypothesis-bearing conjunct instantiated at a
concrete input. -/
theorem claim_C2_witness :
    match_parens ["("] = .error (.parseError "Expression too short") ∧
    match_parens ["x", "y"] = .error (.parseError "No opening ( found") ∧
    (parenDepth (["(", ")"].take 2) = 0 ∧ ∀ j < 1, parenDepth (["(", ")"].take (j + 1)) ≠ 0) ∧
    match_parens ["(", "("] = .error (.parseError "No closing ) found") :=
  ⟨claim_C2.1 ["("] (by decide),
   claim_C2.2.1 ["x", "y"] (by decide) (by decide),
   claim_C2.2.2.1 ["(", ")"] 1 rfl,
   claim_C2.2.2.2.1 ["(", "("] (by decide) (by decide) (by decide)⟩

/-- Digit tokens differ from any fixed token that is not all digits. -/
theorem digit_token_ne {t : String} (h : pyIsdigit t = true) {s : String}
    (hs : pyIsdigit s = false) : t ≠ s := by
  intro he; subst he; rw [h] at hs; cases hs

/-- With a digit token as first operand, the paren scan of the operand region
of `<op> ( a ) ( b )` closes at index 2. -/
theorem mp_digit_operands {ta tb : String} (hta : pyIsdigit ta = true) :
    matchParensGo ["(", ta, ")", "(", tb, ")"] 0 = .ok 2 := by
  have h1 : ta ≠ "(" := digit_token_ne hta (by decide)
  have h2 : ta ≠ ")" := digit_token_ne hta (by decide)
  simp [matchParensGo_cons, parenStep, h1, h2, Except.map, matchParensGo]

/-- C1: for digit tokens `a` and `b` (denoting non-negative integers), the
command `+ ( a ) ( b )` parses and evaluates to their sum (in the Calc engine
and in the Grove engine, in any environment) and `- ( a ) ( b )` parses and
evaluates to their difference (in the Calc engine, which is where the
subtraction production lives). -/
theorem claim_C1 (ta tb : String) (hta : pyIsdigit ta = true) (htb : pyIsdigit tb = true) :
    (∀ cenv : Calc.Env, Calc.runTokens cenv ["+", "(", ta, ")", "(", tb, ")"] =
      .ok (cenv, some ((strToNat ta : Int) + (strToNat tb : Int)))) ∧
    (∀ cenv : Calc.Env, Calc.runTokens cenv ["-", "(", ta, ")", "(", tb, ")"] =
      .ok (cenv, some ((strToNat ta : Int) - (strToNat tb : Int)))) ∧
    (∀ (host : Grove.Host) (env : Grove.Env),
      Grove.runTokens host env ["+", "(", ta, ")", "(", tb, ")"] =
        .ok (env, .int ((strToNat ta : Int) + (strToNat tb : Int)))) := by
  have hmp : match_parens ["(", ta, ")", "(", tb, ")"] = .ok 2 := by
    rw [match_parens]; simp [mp_digit_operands hta]
  have hna : Calc.Number.parse [ta] = .ok (.num (strToNat ta)) := by
    simp [Calc.Number.parse, hta]
  have hnb : Calc.Number.parse [tb] = .ok (.num (strToNat tb)) := by
    simp [Calc.Number.parse, htb]
  have hea : Calc.Expression.parse [ta] = .ok (.num (strToNat ta)) := by
    simp [Calc.Expression.parse, Calc.Add.parse, Calc.Subtract.parse, hna, tryProd]
  have heb : Calc.Expression.parse [tb] = .ok (.num (strToNat tb)) := by
    simp [Calc.Expression.parse, Calc.Add.parse, Calc.Subtract.parse, hnb, tryProd]
  refine ⟨?_, ?_, ?_⟩
  · intro cenv
    have hadd : Calc.Add.parse ["+", "(", ta, ")", "(", tb, ")"] =
        .ok (.add (.num (strToNat ta)) (.num (strToNat tb))) := by
      rw [Calc.Add.parse]
      simp [hmp, hea, heb]
    have hset : Calc.Set.parse ["+", "(", ta, ")", "(", tb, ")"] =
        .error (.parseError "Set statements must begin with set") := by
      simp [Calc.Set.parse]
    simp [Calc.runTokens, Calc.Command.parseTokens, Calc.Statement.parse, hset,
      Calc.Expression.parse, hadd, tryProd, Except.map, Calc.Command.eval, Calc.Expression.eval]
  · intro cenv
    have hsub : Calc.Subtract.parse ["-", "(", ta, ")", "(", tb, ")"] =
        .ok (.sub (.num (strToNat ta)) (.num (strToNat tb))) := by
      rw [Calc.Subtract.parse]
      simp [hmp, hea, heb]
    have haddf : Calc.Add.parse ["-", "(", ta, ")", "(", tb, ")"] =
        .error (.parseError ("Add must begin with + ( in " ++
          String.intercalate " " ["-", "(", ta, ")", "(", tb, ")"])) := by
      rw [Calc.Add.parse]
      simp
    have hset : Calc.Set.parse ["-", "(", ta, ")", "(", tb, ")"] =
        .error (.parseError "Set statements must begin with set") := by
      simp [Calc.Set.parse]
    simp [Calc.runTokens, Calc.Command.parseTokens, Calc.Statement.parse, hset,
      Calc.Expression.parse, haddf, hsub, tryProd, Except.map, Calc.Command.eval,
      Calc.Expression.eval]
  · intro host env
    have hga : Grove.Number.parse [ta] = .ok (.num (strToNat ta)) := by
      simp [Grove.Number.parse, hta]
    have hgb : Grove.Number.parse [tb] = .ok (.num (strToNat tb)) := by
      simp [Grove.Number.parse, htb]
    have hgea : Grove.Expression.parse host env [ta] = .ok (.num (strToNat ta)) := by
      simp [Grove.Expression.parse, hga, tryProd]
    have hgeb : Grove.Expression.parse host env [tb] = .ok (.num (strToNat tb)) := by
      simp [Grove.Expression.parse, hgb, tryProd]
    have hgadd : Grove.Addition.parse host env ["+", "(", ta, ")", "(", tb, ")"] =
        .ok (.add (.num (strToNat ta)) (.num (strToNat tb))) := by
      rw [Grove.Addition.parse]
      simp [hmp, hgea, hgeb]
    have hassign : Grove.Assignment.parse host env ["+", "(", ta, ")", "(", tb, ")"] =
        .error (.parseError "Assignment statements must begin with Assignment") := by
      simp [Grove.Assignment.parse]
    simp [Grove.runTokens, Grove.Command.parseTokens, Grove.Statement.parse, hassign,
      Grove.Terminate.parse, Grove.Import.parse, Grove.Expression.parse, Grove.Number.parse,
      Grove.StringLiteral.parse, Grove.Object.parse, Grove.Call.parse, hgadd, tryProd,
      Except.map, Grove.Command.eval, Grove.Expression.eval, Grove.pyAdd]

/-- Witness for C1 at the tokens `1` and `2`: addition yields 3 (in Calc and
in Grove) and subtraction yields -1 (in Calc). -/
theorem claim_C1_witness :
    Calc.runTokens [] ["+", "(", "1", ")", "(", "2", ")"] = .ok ([], some 3) ∧
    Calc.runTokens [] ["-", "(", "1", ")", "(", "2", ")"] = .ok ([], some (-1)) ∧
    Grove.runTokens Grove.host0 [] ["+", "(", "1", ")", "(", "2", ")"] =
      .ok ([], .int 3) := by
  have h := claim_C1 "1" "2" (by decide) (by decide)
  refine ⟨?_, ?_, ?_⟩
  · simpa using h.1 []
  · simpa using h.2.1 []
  · simpa using h.2.2 Grove.host0 []

/-- C3: `Command.parse` attempts `Statement.parse` first and then
`Expression.parse` on the tokenized line, returning the first success; a
production attempt failing with `GroveParseError` is swallowed locally (the
parse functions are pure, so a failed attempt mutates nothing), and only after
both attempts fail is the single aggregate `Unrecognized Command` parse error
raised. -/
theorem claim_C3 :
    (∀ (host : Grove.Host) (env : Grove.Env) (s : String) (c : Grove.Cmd),
      Grove.Statement.parse host env (tokenize s) = .ok c →
      Grove.Command.parse host env s = .ok c) ∧
    (∀ (host : Grove.Host) (env : Grove.Env) (s m : String) (e : Grove.Expr),
      Grove.Statement.parse host env (tokenize s) = .error (.parseError m) →
      Grove.Expression.parse host env (tokenize s) = .ok e →
      Grove.Command.parse host env s = .ok (.exprC e)) ∧
    (∀ (host : Grove.Host) (env : Grove.Env) (s m1 m2 : String),
      Grove.Statement.parse host env (tokenize s) = .error (.parseError m1) →
      Grove.Expression.parse host env (tokenize s) = .error (.parseError m2) →
      Grove.Command.parse host env s =
        .error (.parseError ("Unrecognized Command: " ++ s))) := by
  refine ⟨?_, ?_, ?_⟩
  · intro host env s c h
    rw [Grove.Command.parse, Grove.Command.parseTokens, h]; rfl
  · intro host env s m e hs he
    rw [Grove.Command.parse, Grove.Command.parseTokens, hs]
    simp [tryProd, he, Except.map]
  · intro host env s m1 m2 hs he
    rw [Grove.Command.parse, Grove.Command.parseTokens, hs]
    simp [tryProd, he, Except.map]

/-- Witness for C3: a statement line (`quit`), an expression line (`7`), and
an unparseable line, each dispatched as the theorem describes. -/
theorem claim_C3_witness :
    Grove.Command.parse Grove.host0 [] "quit" = .ok (.exprC (.term "quit")) ∧
    Grove.Command.parse Grove.host0 [] "7" = .ok (.exprC (.num 7)) ∧
    Grove.Command.parse Grove.host0 [] "( (" =
      .error (.parseError "Unrecognized Command: ( (") := by
  have htok1 : tokenize "quit" = ["quit"] := rfl
  have htok2 : tokenize "7" = ["7"] := rfl
  have htok3 : tokenize "( (" = ["(", "("] := rfl
  have hs1 : Grove.Statement.parse Grove.host0 [] (tokenize "quit") =
      .ok (.exprC (.term "quit")) := by
    rw [htok1]
    have ht : Grove.Terminate.parse ["quit"] = .ok (.term "quit") := rfl
    simp [Grove.Statement.parse, Grove.Assignment.parse, ht, tryProd, Except.map]
  have hs2 : Grove.Statement.parse Grove.host0 [] (tokenize "7") =
      .error (.parseError "Unrecognized Command on tokens: 7") := by
    rw [htok2]
    have ht : Grove.Terminate.parse ["7"] =
        .error (.parseError "Terminate statement must be either quit or exit") := rfl
    simp [Grove.Statement.parse, Grove.Assignment.parse, ht, Grove.Import.parse, tryProd,
      Except.map]
    decide
  have he2 : Grove.Expression.parse Grove.host0 [] (tokenize "7") = .ok (.num 7) := by
    rw [htok2]
    have hn : Grove.Number.parse ["7"] = .ok (.num 7) := rfl
    simp [Grove.Expression.parse, hn, tryProd]
  have hs3 : Grove.Statement.parse Grove.host0 [] (tokenize "( (") =
      .error (.parseError "Unrecognized Command on tokens: ( (") := by
    rw [htok3]
    have ht : Grove.Terminate.parse ["(", "("] =
        .error (.parseError "Statement is too long for Terminate") := rfl
    simp [Grove.Statement.parse, Grove.Assignment.parse, ht, Grove.Import.parse, tryProd,
      Except.map]
    decide
  have he3 : Grove.Expression.parse Grove.host0 [] (tokenize "( (") =
      .error (.parseError "Unrecognized Expression: ( (") := by
    rw [htok3]
    have hn : Grove.Number.parse ["(", "("] =
        .error (.parseError "Wrong number of tokens (2) for number") := rfl
    have hstr : Grove.StringLiteral.parse ["(", "("] =
        .error (.parseError "Wrong number of tokens for string") := rfl
    have hnm : Grove.Name.parse ["(", "("] =
        .error (.parseError "Wrong number of tokens for Name") := rfl
    have himp : Grove.Import.parse ["(", "("] =
        .error (.parseError "First token did not equal import") := rfl
    have ht : Grove.Terminate.parse ["(", "("] =
        .error (.parseError "Statement is too long for Terminate") := rfl
    simp [Grove.Expression.parse, hn, hstr, hnm, himp, ht, Grove.Object.parse, Grove.Call.parse,
      Grove.Addition.parse, tryProd]
    decide
  exact ⟨claim_C3.1 _ _ _ _ hs1, claim_C3.2.1 _ _ _ _ _ hs2 he2,
    claim_C3.2.2 _ _ _ _ _ hs3 he3⟩

/-- A basic-latin letter is not a decimal digit. -/
theorem alpha_not_digit {c : Char} (h : c.isAlpha = true) : c.isDigit = false := by
  cases hd : c.isDigit
  · rfl
  · exfalso
    simp only [Char.isAlpha, Char.isUpper, Char.isLower, Bool.or_eq_true, Bool.and_eq_true,
      decide_eq_true_eq, ge_iff_le] at h
    simp only [Char.isDigit, Bool.and_eq_true, decide_eq_true_eq, ge_iff_le] at hd
    have hd2 : c.val.toNat ≤ 57 := hd.2
    rcases h with ⟨h1, -⟩ | ⟨h1, -⟩
    · have h1n : 65 ≤ c.val.toNat := h1
      omega
    · have h1n : 97 ≤ c.val.toNat := h1
      omega

/-- A character satisfying `isAlpha` differs from any character that does
not. -/
theorem alpha_char_ne {c : Char} (h : c.isAlpha = true) {d : Char}
    (hd : d.isAlpha = false) : c ≠ d := by
  intro e; subst e; rw [h] at hd; cases hd

/-- Inversion of a successful `Name.parse`: the input was a single token whose
first character is alphabetic, whose non-underscore characters are
alphanumeric, and which is not `call`; the node is `Name` of that token. -/
theorem name_parse_ok_inv {ts : List String} {e : Grove.Expr}
    (h : Grove.Name.parse ts = .ok e) :
    ∃ t c cs, ts = [t] ∧ e = .name t ∧ t.data = c :: cs ∧ c.isAlpha = true ∧
      pyIsalnum (String.mk (t.data.filter (fun ch => ch ≠ '_'))) = true ∧ t ≠ "call" := by
  match ts with
  | [] => simp [Grove.Name.parse] at h
  | t :: u :: rest => simp [Grove.Name.parse] at h
  | [t] =>
    rcases hc : t.data with - | ⟨c, cs⟩
    · rw [Grove.Name.parse] at h
      simp [hc] at h
    · rw [Grove.Name.parse] at h
      simp only [hc] at h
      split_ifs at h with h1 h2 h3
      refine ⟨t, c, cs, rfl, ?_, hc, ?_, ?_, h3⟩
      · simp only [Except.ok.injEq] at h
        exact h.symm
      · simpa using h1
      · rw [hc]; simpa using h2

/-- Lookup after update: the updated key maps to the new value. -/
theorem envGet_envSet (env : Grove.Env) (k : String) (v : Grove.Value) :
    Grove.envGet (Grove.envSet env k v) k = some v := by
  simp [Grove.envGet, Grove.envSet, List.find?]

/-- A successfully `Name`-parsed token is not all digits. -/
theorem name_token_not_digit {t : String} {c : Char} {cs : List Char}
    (hc : t.data = c :: cs) (ha : c.isAlpha = true) : pyIsdigit t = false := by
  simp [pyIsdigit, hc, alpha_not_digit ha]

/-- Parsing a single `Name`-valid token through the whole expression
dispatcher yields the `Name` node. -/
theorem expression_parse_single_name (host : Grove.Host) (env : Grove.Env) {x : String}
    (hx : Grove.Name.parse [x] = .ok (.name x))
    (hq : x ≠ "quit") (he : x ≠ "exit") :
    Grove.Expression.parse host env [x] = .ok (.name x) := by
  obtain ⟨t, c, cs, hts, -, hc, ha, -, -⟩ := name_parse_ok_inv hx
  have ht : t = x := by cases hts; rfl
  subst ht
  have hnum : Grove.Number.parse [t] = .error (.parseError "Numbers can contain only digits") := by
    simp [Grove.Number.parse, name_token_not_digit hc ha]
  have hstr : Grove.StringLiteral.parse [t] =
      .error (.parseError "Needs quotes on the sides") := by
    rw [Grove.StringLiteral.parse]
    simp [hc, alpha_char_ne ha (show Char.isAlpha '"' = false by decide)]
  have hterm : Grove.Terminate.parse [t] =
      .error (.parseError "Terminate statement must be either quit or exit") := by
    simp [Grove.Terminate.parse, hq, he]
  simp [Grove.Expression.parse, hnum, hstr, Grove.Object.parse, Grove.Call.parse,
    Grove.Addition.parse, hx, tryProd]

/-- Running the single-token line `x` (a valid name other than quit/exit)
evaluates the name in the current environment. -/
theorem runTokens_single_name (host : Grove.Host) (env : Grove.Env) {x : String}
    (hx : Grove.Name.parse [x] = .ok (.name x))
    (hq : x ≠ "quit") (he : x ≠ "exit") {v : Grove.Value}
    (hv : Grove.envGet env x = some v) :
    Grove.runTokens host env [x] = .ok (env, v) := by
  have hterm : Grove.Terminate.parse [x] =
      .error (.parseError "Terminate statement must be either quit or exit") := by
    simp [Grove.Terminate.parse, hq, he]
  have hstmt : Grove.Statement.parse host env [x] =
      .error (.parseError ("Unrecognized Command on tokens: " ++ String.intercalate " " [x])) := by
    simp [Grove.Statement.parse, Grove.Assignment.parse, hterm, Grove.Import.parse, tryProd,
      Except.map]
  simp [Grove.runTokens, Grove.Command.parseTokens, hstmt,
    expression_parse_single_name host env hx hq he, tryProd, Except.map,
    Grove.Command.eval, Grove.Expression.eval, Grove.Name.eval, hv]

/-- Running `set x = <digit token>` binds the integer to `x` and returns
None. -/
theorem runTokens_set_digit (host : Grove.Host) (env : Grove.Env) {x : String}
    (hx : Grove.Name.parse [x] = .ok (.name x)) {d : String} (hd : pyIsdigit d = true) :
    Grove.runTokens host env ["set", x, "=", d] =
      .ok (Grove.envSet env x (.int (strToNat d)), .none) := by
  have hnum : Grove.Number.parse [d] = .ok (.num (strToNat d)) := by
    simp [Grove.Number.parse, hd]
  have hexp : Grove.Expression.parse host env [d] = .ok (.num (strToNat d)) := by
    simp [Grove.Expression.parse, hnum, tryProd]
  have hassign : Grove.Assignment.parse host env ["set", x, "=", d] =
      .ok (.assign x (.num (strToNat d))) := by
    rw [Grove.Assignment.parse]
    simp [hx, hexp]
  simp [Grove.runTokens, Grove.Command.parseTokens, Grove.Statement.parse, hassign, tryProd,
    Except.map, Grove.Command.eval, Grove.Expression.eval]

/-- C4: for every valid name `x` (other than the terminate keywords, which
`Statement.parse` would claim first), running `set x = 5` and then the bare
expression `x` yields 5, in any starting environment and host; and running
`set x = 1` then `set x = 2` overwrites the binding, so a subsequent lookup
of `x` yields 2. -/
theorem claim_C4 (x : String) (hx : Grove.Name.parse [x] = .ok (.name x))
    (hq : x ≠ "quit") (he : x ≠ "exit") (host : Grove.Host) (env : Grove.Env) :
    (∃ env1, Grove.runTokens host env ["set", x, "=", "5"] = .ok (env1, .none) ∧
      Grove.envGet env1 x = some (.int 5) ∧
      Grove.runTokens host env1 [x] = .ok (env1, .int 5)) ∧
    (∃ env1 env2, Grove.runTokens host env ["set", x, "=", "1"] = .ok (env1, .none) ∧
      Grove.runTokens host env1 ["set", x, "=", "2"] = .ok (env2, .none) ∧
      Grove.envGet env2 x = some (.int 2) ∧
      Grove.runTokens host env2 [x] = .ok (env2, .int 2)) := by
  constructor
  · refine ⟨Grove.envSet env x (.int 5), ?_, ?_, ?_⟩
    · simpa using runTokens_set_digit host env hx (show pyIsdigit "5" = true by decide)
    · exact envGet_envSet env x (.int 5)
    · exact runTokens_single_name host _ hx hq he (envGet_envSet env x (.int 5))
  · refine ⟨Grove.envSet env x (.int 1), Grove.envSet (Grove.envSet env x (.int 1)) x (.int 2),
      ?_, ?_, ?_, ?_⟩
    · simpa using runTokens_set_digit host env hx (show pyIsdigit "1" = true by decide)
    · simpa using runTokens_set_digit host (Grove.envSet env x (.int 1)) hx (show pyIsdigit "2" = true by decide)
    · exact envGet_envSet _ x (.int 2)
    · exact runTokens_single_name host _ hx hq he (envGet_envSet _ x (.int 2))

/-- Witness for C4 at the name `x` and the empty environment. -/
theorem claim_C4_witness :
    (∃ env1, Grove.runTokens Grove.host0 [] ["set", "x", "=", "5"] = .ok (env1, .none) ∧
      Grove.envGet env1 "x" = some (.int 5) ∧
      Grove.runTokens Grove.host0 env1 ["x"] = .ok (env1, .int 5)) ∧
    (∃ env1 env2, Grove.runTokens Grove.host0 [] ["set", "x", "=", "1"] = .ok (env1, .none) ∧
      Grove.runTokens Grove.host0 env1 ["set", "x", "=", "2"] = .ok (env2, .none) ∧
      Grove.envGet env2 "x" = some (.int 2) ∧
      Grove.runTokens Grove.host0 env2 ["x"] = .ok (env2, .int 2)) :=
  claim_C4 "x" rfl (by decide) (by decide) Grove.host0 []

/-- An alphabetic character is alphanumeric. -/
theorem alpha_isAlphanum {c : Char} (h : c.isAlpha = true) : c.isAlphanum = true := by
  simp [Char.isAlphanum, h]

/-- The conditions checked by `Name.parse` imply the specification wording of
a valid name. -/
theorem validName_of_parse_conditions {t : String} {c : Char} {cs : List Char}
    (hc : t.data = c :: cs) (ha : c.isAlpha = true)
    (hal : pyIsalnum (String.mk (t.data.filter (fun ch => ch ≠ '_'))) = true)
    (hcall : t ≠ "call") : validName t := by
  refine ⟨⟨c, cs, hc, ha⟩, ?_, hcall⟩
  intro ch hch
  by_cases h_ : ch = '_'
  · exact Or.inr h_
  · left
    have hmem : ch ∈ t.data := List.mem_of_mem_drop hch
    have hfil : ch ∈ t.data.filter (fun x => decide (x ≠ '_')) := by
      rw [List.mem_filter]
      exact ⟨hmem, by simpa using h_⟩
    simp only [pyIsalnum, Bool.and_eq_true, List.all_eq_true] at hal
    exact hal.2 ch hfil

/-- The specification wording of a valid name implies the conditions checked
by `Name.parse`, hence a successful parse. -/
theorem name_parse_of_validName {t : String} (h : validName t) :
    Grove.Name.parse [t] = .ok (.name t) := by
  obtain ⟨⟨c, cs, hc, ha⟩, hrest, hcall⟩ := h
  have hfilter_all : ∀ ch ∈ t.data.filter (fun x => decide (x ≠ '_')), ch.isAlphanum = true := by
    intro ch hch
    rw [List.mem_filter] at hch
    obtain ⟨hmem, hne⟩ := hch
    rw [hc] at hmem
    rcases List.mem_cons.mp hmem with rfl | htail
    · exact alpha_isAlphanum ha
    · rcases hrest ch (by rw [hc]; simpa using htail) with halnum | hunder
      · exact halnum
      · exact absurd (by simpa using hne) (by simp [hunder])
  have hcmem : c ∈ t.data.filter (fun x => decide (x ≠ '_')) := by
    rw [List.mem_filter, hc]
    exact ⟨List.mem_cons_self c cs, by simpa using alpha_char_ne ha (show Char.isAlpha '_' = false by decide)⟩
  have halnum : pyIsalnum (String.mk (t.data.filter (fun ch => ch ≠ '_'))) = true := by
    simp only [pyIsalnum, Bool.and_eq_true, List.all_eq_true]
    constructor
    · rcases hfe : t.data.filter (fun x => decide (x ≠ '_')) with - | ⟨a, as⟩
      · rw [hfe] at hcmem; cases hcmem
      · simp [hfe]
    · exact hfilter_all
  have halnum2 : pyIsalnum (String.mk ((c :: cs).filter (fun ch => ch ≠ '_'))) = true := by
    rw [← hc]; exact halnum
  rw [Grove.Name.parse]
  simp [hc, ha, hcall]
  simpa using halnum2

/-- C5 as stated is false on the completed interpreter: its environment is
the module `globals()`, which is pre-populated at startup, so the bare Name
`sys` — never bound by any Assignment — evaluates successfully to the `sys`
module instead of failing with UndefinedName. -/
theorem claim_C5_counterexample :
    Grove.runTokens Grove.host0 Grove.initialGlobals ["sys"] =
      .ok (Grove.initialGlobals, .module "sys") :=
  runTokens_single_name Grove.host0 Grove.initialGlobals
    (show Grove.Name.parse ["sys"] = .ok (.name "sys") from rfl) (by decide) (by decide)
    (show Grove.envGet Grove.initialGlobals "sys" = some (.module "sys") from rfl)

/-- C5 (amended): `Name.parse` succeeds iff it is given exactly one token
whose first character is alphabetic, whose remaining characters are
alphanumeric or underscore, and which is not `call` (and the node is `Name`
of that token); `Name` evaluation fails with the UndefinedName
`GroveEvalError` exactly when the identifier is absent from the environment
and returns the bound value when present — but the environment of the
completed interpreter is the module globals, pre-populated at startup, so
names such as `sys` are bound before any Assignment runs. -/
theorem claim_C5 :
    (∀ ts : List String, (∃ e, Grove.Name.parse ts = .ok e) ↔
      (∃ t, ts = [t] ∧ validName t)) ∧
    (∀ t : String, validName t → Grove.Name.parse [t] = .ok (.name t)) ∧
    (∀ (env : Grove.Env) (x : String), Grove.envGet env x = Option.none →
      Grove.Name.eval env x = .error (.evalError (x ++ " is undefined"))) ∧
    (∀ (env : Grove.Env) (x : String) (v : Grove.Value), Grove.envGet env x = some v →
      Grove.Name.eval env x = .ok v) ∧
    Grove.envGet Grove.initialGlobals "sys" = some (.module "sys") := by
  refine ⟨?_, fun t hv => name_parse_of_validName hv, ?_, ?_, rfl⟩
  · intro ts
    constructor
    · rintro ⟨e, he⟩
      obtain ⟨t, c, cs, rfl, -, hc, ha, hal, hcall⟩ := name_parse_ok_inv he
      exact ⟨t, rfl, validName_of_parse_conditions hc ha hal hcall⟩
    · rintro ⟨t, rfl, hv⟩
      exact ⟨.name t, name_parse_of_validName hv⟩
  · intro env x h
    rw [Grove.Name.eval, h]
  · intro env x v h
    rw [Grove.Name.eval, h]

/-- Witness for C5: the iff at the token `x`, the UndefinedName error on the
empty environment, and a successful lookup. -/
theorem claim_C5_witness :
    (∃ e, Grove.Name.parse ["x"] = .ok e) ∧
    Grove.Name.parse ["x"] = .ok (.name "x") ∧
    Grove.Name.eval [] "zzz" = .error (.evalError "zzz is undefined") ∧
    Grove.Name.eval [("y", .int 7)] "y" = .ok (.int 7) := by
  have hv : validName "x" := by
    refine ⟨⟨'x', [], rfl, by decide⟩, ?_, by decide⟩
    intro ch hch
    simp at hch
  exact ⟨(claim_C5.1 ["x"]).mpr ⟨"x", rfl, hv⟩,
    claim_C5.2.1 "x" hv,
    claim_C5.2.2.1 [] "zzz" rfl,
    claim_C5.2.2.2.1 [("y", .int 7)] "y" (.int 7) rfl⟩

/-- A successful dispatcher step came from the tried production or from the
rest of the chain. -/
theorem tryProd_ok {α : Type} {r : Except Err α} {next : Unit → Except Err α} {v : α}
    (h : tryProd r next = .ok v) : r = .ok v ∨ next () = .ok v := by
  cases r with
  | ok w => exact Or.inl h
  | error err => cases err with
    | parseError m => exact Or.inr h
    | evalError m => simp [tryProd] at h
    | pyError k => simp [tryProd] at h
    | systemExit => simp [tryProd] at h

/-- Unwrapping of a mapped parse result. -/
theorem except_map_ok {α β : Type} {f : α → β} {r : Except Err α} {b : β}
    (h : r.map f = .ok b) : ∃ a, r = .ok a ∧ f a = b := by
  cases r with
  | ok a => exact ⟨a, rfl, by simpa [Except.map] using h⟩
  | error e => simp [Except.map] at h

/-- `Number.parse` only builds `Number` nodes. -/
theorem number_parse_shape {ts : List String} {e : Grove.Expr}
    (h : Grove.Number.parse ts = .ok e) : ∃ n, e = .num n := by
  rcases ts with - | ⟨t, - | ⟨u, rest⟩⟩ <;> simp only [Grove.Number.parse] at h
  · cases h
  · split_ifs at h
    exact ⟨_, (Except.ok.inj h).symm⟩
  · cases h

/-- `StringLiteral.parse` only builds `StringLiteral` nodes. -/
theorem string_literal_parse_shape {ts : List String} {e : Grove.Expr}
    (h : Grove.StringLiteral.parse ts = .ok e) : ∃ s, e = .str s := by
  rcases ts with - | ⟨t, - | ⟨u, rest⟩⟩ <;> simp only [Grove.StringLiteral.parse] at h
  · cases h
  · rcases hd : t.data with - | ⟨c, cs⟩ <;> simp only [hd] at h
    · cases h
    · split_ifs at h
      exact ⟨_, (Except.ok.inj h).symm⟩
  · cases h

/-- `Import.parse` only builds `Import` nodes. -/
theorem import_parse_shape {ts : List String} {e : Grove.Expr}
    (h : Grove.Import.parse ts = .ok e) : ∃ m, e = .imp m := by
  rcases ts with - | ⟨t, - | ⟨u, - | ⟨w, rest⟩⟩⟩ <;> simp only [Grove.Import.parse] at h
  · cases h
  · cases h
  · split_ifs at h
    exact ⟨_, (Except.ok.inj h).symm⟩
  · cases h

/-- `Addition.parse` only builds `Addition` nodes. -/
theorem addition_parse_shape {host : Grove.Host} {env : Grove.Env} {ts : List String}
    {e : Grove.Expr} (h : Grove.Addition.parse host env ts = .ok e) : ∃ a b, e = .add a b := by
  simp only [Grove.Addition.parse] at h
  iterate 12 (all_goals try split at h)
  all_goals try (cases h)
  all_goals exact ⟨_, _, rfl⟩

/-- `Call.parse` only builds `Call` nodes. -/
theorem call_parse_shape {host : Grove.Host} {env : Grove.Env} {ts : List String}
    {e : Grove.Expr} (h : Grove.Call.parse host env ts = .ok e) : ∃ r m as, e = .call r m as := by
  simp only [Grove.Call.parse] at h
  iterate 8 (all_goals try split at h)
  all_goals try (cases h)
  all_goals exact ⟨_, _, _, rfl⟩

/-- A single token parses as `Terminate` exactly when it is `quit` or
`exit`. -/
theorem terminate_single_inv {t : String} {e : Grove.Expr}
    (h : Grove.Terminate.parse [t] = .ok e) : (t = "quit" ∨ t = "exit") ∧ e = .term t := by
  rw [Grove.Terminate.parse] at h
  simp only [List.length_cons, List.length_nil] at h
  rw [if_neg (by omega)] at h
  split_ifs at h with hcond
  push_neg at hcond
  constructor
  · by_cases hq : t = "quit"
    · exact Or.inl hq
    · exact Or.inr (hcond hq)
  · exact (Except.ok.inj h).symm

/-- A single token parses as some expression of `Terminate` shape only when
it is `quit` or `exit`. -/
theorem expression_parse_single_term {host : Grove.Host} {env : Grove.Env} {t u : String}
    (h : Grove.Expression.parse host env [t] = .ok (.term u)) : t = "quit" ∨ t = "exit" := by
  rw [Grove.Expression.parse] at h
  rcases tryProd_ok h with hp | h
  · obtain ⟨n, hne⟩ := number_parse_shape hp; cases hne
  rcases tryProd_ok h with hp | h
  · obtain ⟨s1, hse⟩ := string_literal_parse_shape hp; cases hse
  rcases tryProd_ok h with hp | h
  · rw [show Grove.Object.parse host env [t] = .error (.parseError
      ("Wrong amount of tokens for parsing object: " ++ String.intercalate " " [t])) from rfl] at hp
    cases hp
  rcases tryProd_ok h with hp | h
  · obtain ⟨r, m, as, hce⟩ := call_parse_shape hp; cases hce
  rcases tryProd_ok h with hp | h
  · obtain ⟨a, b, hae⟩ := addition_parse_shape hp; cases hae
  rcases tryProd_ok h with hp | h
  · obtain ⟨t1, c, cs, -, hne, -⟩ := name_parse_ok_inv hp; cases hne
  rcases tryProd_ok h with hp | h
  · obtain ⟨m, hie⟩ := import_parse_shape hp; cases hie
  rcases tryProd_ok h with hp | h
  · exact (terminate_single_inv hp).1
  · cases h

/-- C7: the single tokens `quit` and `exit` each parse (through the full
command dispatcher) as a `Terminate` node, whose evaluation signals process
termination (`sys.exit()`, modeled as `Err.systemExit`); and no other single
token parses as a `Terminate` node. -/
theorem claim_C7 :
    (∀ (host : Grove.Host) (env : Grove.Env) (s : String),
      Grove.Command.parseTokens host env s ["quit"] = .ok (.exprC (.term "quit"))) ∧
    (∀ (host : Grove.Host) (env : Grove.Env) (s : String),
      Grove.Command.parseTokens host env s ["exit"] = .ok (.exprC (.term "exit"))) ∧
    (∀ (host : Grove.Host) (env : Grove.Env) (t : String),
      Grove.Command.eval host env (.exprC (.term t)) = .error .systemExit) ∧
    (∀ (host : Grove.Host) (env : Grove.Env) (s t u : String),
      Grove.Command.parseTokens host env s [t] = .ok (.exprC (.term u)) →
      t = "quit" ∨ t = "exit") := by
  refine ⟨?_, ?_, ?_, ?_⟩
  · intro host env s
    have ht : Grove.Terminate.parse ["quit"] = .ok (.term "quit") := rfl
    simp [Grove.Command.parseTokens, Grove.Statement.parse, Grove.Assignment.parse, ht, tryProd,
      Except.map]
  · intro host env s
    have ht : Grove.Terminate.parse ["exit"] = .ok (.term "exit") := rfl
    simp [Grove.Command.parseTokens, Grove.Statement.parse, Grove.Assignment.parse, ht, tryProd,
      Except.map]
  · intro host env t
    simp [Grove.Command.eval, Grove.Expression.eval]
  · intro host env s t u h
    rw [Grove.Command.parseTokens] at h
    rcases tryProd_ok h with hstmt | h
    · rw [Grove.Statement.parse] at hstmt
      rcases tryProd_ok hstmt with hp | hstmt
      · rw [show Grove.Assignment.parse host env [t] =
          .error (.parseError "Statement is too short for Assignment") from by
            simp [Grove.Assignment.parse]] at hp
        cases hp
      rcases tryProd_ok hstmt with hp | hstmt
      · obtain ⟨e1, he1, he2⟩ := except_map_ok hp
        have := (terminate_single_inv he1).1
        exact this
      rcases tryProd_ok hstmt with hp | hstmt
      · obtain ⟨e1, he1, -⟩ := except_map_ok hp
        obtain ⟨m, hie⟩ := import_parse_shape he1
        rw [show Grove.Import.parse [t] =
          .error (.parseError "Statement is wrong length for Import") from rfl] at he1
        cases he1
      · cases hstmt
    rcases tryProd_ok h with hp | h
    · obtain ⟨e1, he1, he2⟩ := except_map_ok hp
      have he : e1 = Grove.Expr.term u := Grove.Cmd.exprC.inj he2
      subst he
      exact expression_parse_single_term he1
    · cases h

/-- Witness for C7: the quit line parses as Terminate, evaluates to the
termination signal, and instantiates the only-these-two direction. -/
theorem claim_C7_witness :
    Grove.Command.parseTokens Grove.host0 [] "quit" ["quit"] = .ok (.exprC (.term "quit")) ∧
    Grove.Command.eval Grove.host0 [] (.exprC (.term "quit")) = .error .systemExit ∧
    ("quit" = "quit" ∨ "quit" = "exit") :=
  ⟨claim_C7.1 Grove.host0 [] "quit", claim_C7.2.2.1 Grove.host0 [] "quit",
    claim_C7.2.2.2 Grove.host0 [] "quit" "quit" "quit" (claim_C7.1 Grove.host0 [] "quit")⟩

/-- C8 as stated is false on the completed interpreter: `StringLiteral.parse`
rejects the single token `abc` (it demands a leading double quote), and on
the single token `"hi"` the resulting node evaluates to `hi`, the token with
its first and last characters removed, not to the literal token. -/
theorem claim_C8_counterexample :
    Grove.StringLiteral.parse ["abc"] = .error (.parseError "Needs quotes on the sides") ∧
    Grove.StringLiteral.parse ["\"hi\""] = .ok (.str "hi") ∧
    Grove.Expression.eval Grove.host0 [] (.str "hi") = .ok ([], .str "hi") ∧
    ("hi" : String) ≠ "\"hi\"" := by
  refine ⟨rfl, rfl, ?_, by decide⟩
  simp [Grove.Expression.eval]

/-- C8 (amended): in the completed interpreter, `StringLiteral.parse`
succeeds iff it is given exactly one token whose first character is a double
quote (a length-1 check plus a quote check on `tokens[0][0]`, applied twice
because the source indexes with `len(tokens)-1`), and the node holds — and
evaluates to — the token with its first and last characters removed.  In the
unfinished `src/grove_lang.py` the claim holds as stated: its
`StringLiteral.parse` succeeds iff given exactly one token and the node
evaluates to the literal token. -/
theorem claim_C8 :
    (∀ ts : List String, (∃ e, Grove.StringLiteral.parse ts = .ok e) ↔
      (∃ t, ts = [t] ∧ t.data.head? = some '"')) ∧
    (∀ t : String, t.data.head? = some '"' →
      Grove.StringLiteral.parse [t] = .ok (.str (String.mk ((t.data.drop 1).dropLast)))) ∧
    (∀ (host : Grove.Host) (env : Grove.Env) (s : String),
      Grove.Expression.eval host env (.str s) = .ok (env, .str s)) ∧
    (∀ ts : List String, (∃ v, GroveMain.StringLiteral.parse ts = .ok v) ↔ (∃ t, ts = [t])) ∧
    (∀ t : String, GroveMain.StringLiteral.parse [t] = .ok t ∧ GroveMain.StringLiteral.eval t = t) := by
  have hparse : ∀ t : String, t.data.head? = some '"' →
      Grove.StringLiteral.parse [t] = .ok (.str (String.mk ((t.data.drop 1).dropLast))) := by
    intro t ht
    rcases hd : t.data with - | ⟨c, cs⟩
    · rw [hd] at ht; cases ht
    · rw [hd] at ht
      have hc : c = '"' := by simpa using ht
      rw [Grove.StringLiteral.parse]
      simp [hd, hc]
  refine ⟨?_, hparse, ?_, ?_, ?_⟩
  · intro ts
    constructor
    · rintro ⟨e, he⟩
      rcases ts with - | ⟨t, - | ⟨u, rest⟩⟩ <;> simp only [Grove.StringLiteral.parse] at he
      · cases he
      · refine ⟨t, rfl, ?_⟩
        rcases hd : t.data with - | ⟨c, cs⟩ <;> simp only [hd] at he
        · cases he
        · split_ifs at he with hq
          push_neg at hq
          simp [hq]
      · cases he
    · rintro ⟨t, rfl, ht⟩
      exact ⟨_, hparse t ht⟩
  · intro host env s
    simp [Grove.Expression.eval]
  · intro ts
    constructor
    · rintro ⟨v, hv⟩
      rcases ts with - | ⟨t, - | ⟨u, rest⟩⟩ <;> simp only [GroveMain.StringLiteral.parse] at hv
      · cases hv
      · exact ⟨t, rfl⟩
      · cases hv
    · rintro ⟨t, rfl⟩
      exact ⟨t, rfl⟩
  · intro t
    exact ⟨rfl, rfl⟩

/-- Witness for C8 at the token `"ab"` (quoted) and the bare token `xy` for
the unfinished variant. -/
theorem claim_C8_witness :
    Grove.StringLiteral.parse ["\"ab\""] = .ok (.str "ab") ∧
    (∃ e, Grove.StringLiteral.parse ["\"ab\""] = .ok e) ∧
    GroveMain.StringLiteral.parse ["xy"] = .ok "xy" := by
  refine ⟨?_, ?_, (claim_C8.2.2.2.2 "xy").1⟩
  · have h := claim_C8.2.1 "\"ab\"" rfl
    simpa using h
  · exact (claim_C8.1 ["\"ab\""]).mpr ⟨"\"ab\"", rfl, rfl⟩

/-- A host exposing a callable method `m` whose invocation raises (as with a
wrong argument count). -/
def hostArity : Grove.Host :=
  { dir := fun _ => ["m"], callableAttr := fun _ _ => true,
    invoke := fun _ _ _ => .error (), importModule := fun _ => .error (),
    objectLookup := fun _ _ => .error (.parseError "Couldnt find the object in modules") }

/-- A host exposing `m` as a non-callable attribute. -/
def hostNC : Grove.Host :=
  { dir := fun _ => ["m"], callableAttr := fun _ _ => false,
    invoke := fun _ _ _ => .error (), importModule := fun _ => .error (),
    objectLookup := fun _ _ => .error (.parseError "Couldnt find the object in modules") }

/-- A host exposing a callable method `m` that returns 42. -/
def hostOk : Grove.Host :=
  { dir := fun _ => ["m"], callableAttr := fun _ _ => true,
    invoke := fun _ _ _ => .ok (.int 42), importModule := fun _ => .error (),
    objectLookup := fun _ _ => .error (.parseError "Couldnt find the object in modules") }

/-- C6 as stated is false at its arity conjunct: when the invocation raises
(here, on a bound receiver whose callable method `m` rejects its arguments),
`Call.eval` raises a `GroveParseError` with the
incorrect-number-of-parameters message — a parse error at evaluation time,
not an ArityMismatch evaluation error. -/
theorem claim_C6_counterexample :
    Grove.Call.eval hostArity [("x", Grove.Value.int 0)] "x" "m" [] =
      .error (.parseError "incorrect number of parameters for m (0 given)") := by
  simp [Grove.Call.eval, Grove.Call.evalArgs, Grove.Name.eval, Grove.envGet, hostArity]
  rfl

/-- C6 (amended): a Call on an undefined receiver fails with the
not-defined-in-scope `GroveEvalError` before any method resolution (for every
host); with a bound receiver it fails with the UndefinedMethod
`GroveEvalError` when the method is absent from `dir` of the receiver value,
with the NotCallable `GroveEvalError` when present but not callable; if
evaluating the arguments or invoking the method raises, it fails with a
`GroveParseError` carrying the incorrect-number-of-parameters message (any
invocation-time exception is so reported, not only a wrong argument count);
otherwise it invokes the method on the arguments, which are evaluated left to
right, and returns the invocation result. -/
theorem claim_C6 :
    (∀ (host : Grove.Host) (env : Grove.Env) (ref method : String) (args : List Grove.Expr),
      Grove.envGet env ref = Option.none →
      Grove.Call.eval host env ref method args =
        .error (.evalError (ref ++ " not defined in scope."))) ∧
    (∀ (host : Grove.Host) (env : Grove.Env) (ref method : String) (args : List Grove.Expr)
      (v : Grove.Value), Grove.envGet env ref = some v → method ∉ host.dir v →
      Grove.Call.eval host env ref method args =
        .error (.evalError (method ++ " not defined for " ++ ref))) ∧
    (∀ (host : Grove.Host) (env : Grove.Env) (ref method : String) (args : List Grove.Expr)
      (v : Grove.Value), Grove.envGet env ref = some v → method ∈ host.dir v →
      host.callableAttr v method = false →
      Grove.Call.eval host env ref method args =
        .error (.evalError (method ++ " not callable on " ++ ref))) ∧
    (∀ (host : Grove.Host) (env : Grove.Env) (ref method : String) (args : List Grove.Expr)
      (v : Grove.Value), Grove.envGet env ref = some v → method ∈ host.dir v →
      host.callableAttr v method = true →
      (∀ (err : Err), Grove.Call.evalArgs host env args = .error err →
        Grove.Call.eval host env ref method args =
          .error (.parseError ("incorrect number of parameters for " ++ method ++
            " (" ++ toString args.length ++ " given)"))) ∧
      (∀ (env2 : Grove.Env) (vs : List Grove.Value),
        Grove.Call.evalArgs host env args = .ok (env2, vs) →
        (host.invoke v method vs = .error () →
          Grove.Call.eval host env ref method args =
            .error (.parseError ("incorrect number of parameters for " ++ method ++
              " (" ++ toString args.length ++ " given)"))) ∧
        (∀ rv : Grove.Value, host.invoke v method vs = .ok rv →
          Grove.Call.eval host env ref method args = .ok (env2, rv)))) ∧
    (∀ (host : Grove.Host) (env env1 : Grove.Env) (a : Grove.Expr) (rest : List Grove.Expr)
      (v : Grove.Value), Grove.Expression.eval host env a = .ok (env1, v) →
      Grove.Call.evalArgs host env (a :: rest) =
        match Grove.Call.evalArgs host env1 rest with
        | .ok (env2, vs) => .ok (env2, v :: vs)
        | .error e => .error e) := by
  refine ⟨?_, ?_, ?_, ?_, ?_⟩
  · intro host env ref method args h
    rw [Grove.Call.eval, Grove.Name.eval, h]
  · intro host env ref method args v hv hmem
    rw [Grove.Call.eval, Grove.Name.eval, hv]
    simp [hmem]
  · intro host env ref method args v hv hmem hnc
    rw [Grove.Call.eval, Grove.Name.eval, hv]
    simp [hmem, hnc]
  · intro host env ref method args v hv hmem hc
    constructor
    · intro err herr
      rw [Grove.Call.eval, Grove.Name.eval, hv]
      simp [hmem, hc, herr]
    · intro env2 vs hargs
      constructor
      · intro hinv
        rw [Grove.Call.eval, Grove.Name.eval, hv]
        simp [hmem, hc, hargs, hinv]
      · intro rv hinv
        rw [Grove.Call.eval, Grove.Name.eval, hv]
        simp [hmem, hc, hargs, hinv]
  · intro host env env1 a rest v ha
    rw [Grove.Call.evalArgs, ha]
    cases hrr : Grove.Call.evalArgs host env1 rest with
    | error e => simp [hrr]
    | ok p => obtain ⟨env2, vs⟩ := p; simp [hrr]

/-- Witness for C6: the four dispatch outcomes and the argument step, each at
a concrete host and environment. -/
theorem claim_C6_witness :
    Grove.Call.eval Grove.host0 [] "x" "m" [] =
      .error (.evalError "x not defined in scope.") ∧
    Grove.Call.eval Grove.host0 [("x", Grove.Value.int 0)] "x" "m" [] =
      .error (.evalError "m not defined for x") ∧
    Grove.Call.eval hostNC [("x", Grove.Value.int 0)] "x" "m" [] =
      .error (.evalError "m not callable on x") ∧
    Grove.Call.eval hostOk [("x", Grove.Value.int 0)] "x" "m" [] =
      .ok ([("x", Grove.Value.int 0)], .int 42) ∧
    Grove.Call.eval hostArity [("x", Grove.Value.int 0)] "x" "m" [Grove.Expr.num 1] =
      .error (.parseError "incorrect number of parameters for m (1 given)") := by
  refine ⟨?_, ?_, ?_, ?_, ?_⟩
  · exact claim_C6.1 Grove.host0 [] "x" "m" [] rfl
  · exact claim_C6.2.1 Grove.host0 [("x", Grove.Value.int 0)] "x" "m" [] (.int 0) rfl
      (by simp [Grove.host0])
  · exact claim_C6.2.2.1 hostNC [("x", Grove.Value.int 0)] "x" "m" [] (.int 0) rfl
      (by simp [hostNC]) rfl
  · exact ((claim_C6.2.2.2.1 hostOk [("x", Grove.Value.int 0)] "x" "m" [] (.int 0) rfl
      (by simp [hostOk]) rfl).2 [("x", Grove.Value.int 0)] []
      (by simp [Grove.Call.evalArgs])).2 (.int 42) rfl
  · exact ((claim_C6.2.2.2.1 hostArity [("x", Grove.Value.int 0)] "x" "m" [Grove.Expr.num 1]
      (.int 0) rfl (by simp [hostArity]) rfl).2 [("x", Grove.Value.int 0)] [Grove.Value.int 1]
      (by simp [Grove.Call.evalArgs, Grove.Expression.eval])).1 rfl
